import Mathlib

/-!
Shallow embedding of the youtube-lookup gateway (Rust) for verification of its
specification. Definitions are translated from the repository sources:
`src/errors.rs`, `src/youtube/{channels,subscriptions,playlist_items,videos}.rs`,
`src/youtubei/{resolve_url,browse}.rs`, `src/api/{handlers,error}.rs`,
`src/models.rs`. Network I/O is modelled by passing the already-received
upstream responses (status code plus body-decode results) or, for the request
handlers, an oracle environment giving the outcome of each upstream primitive.
-/

namespace YouTubeLookup

/-- Error taxonomy, from `src/errors.rs` (`YouTubeError`). The transport-level
variants (`HttpError`, `LegacyHttpError`, `ProtobufError`, `Other`) carry only
a textual detail here. -/
inductive YouTubeError where
  | AccountClosed
  | AccountTerminated
  | SubscriptionsPrivate
  | NotFound
  | Ratelimited
  | Unauthorized
  | Forbidden
  | InternalServerError
  | UnknownStatusCode (code : Nat)
  | ParseError (detail : String)
  | HttpError (detail : String)
  | LegacyHttpError (detail : String)
  | ProtobufError (detail : String)
  | Other (detail : String)
deriving DecidableEq, Repr

/-- JSON error body of a non-OK upstream Data API response
(`ErrorResponse { error: Error { message } }` in the Rust sources). -/
structure ErrorBody where
  message : String
deriving DecidableEq, Repr

/-- An upstream HTTP response as seen by a status classifier: the status code,
the result of decoding the body as an `ErrorResponse` (consulted on 403), and
the result of reading the raw body text (consulted in the unknown-status
branch). A decode/read failure is the error string of the underlying decoder. -/
structure HttpResponse where
  status : Nat
  errorBody : Except String ErrorBody
  rawBody : Except String String
deriving Repr

/-- Rust `str::starts_with`, modelled on the character data so that it is
kernel-evaluable. -/
def starts_with (s pre : String) : Bool := pre.data.isPrefixOf s.data

/-- Rust `str::trim`, modelled on the character data: drop whitespace from
both ends. -/
def rust_trim (s : String) : String :=
  ⟨((s.data.dropWhile Char.isWhitespace).reverse.dropWhile Char.isWhitespace).reverse⟩

/-- Rust `str::to_uppercase`, modelled as a character-wise map. -/
def to_uppercase (s : String) : String := ⟨s.data.map Char.toUpper⟩

/-- The exact closed-account message matched in `subscriptions.rs`. -/
def sub_closed_message : String :=
  "Subscriptions could not be retrieved because the subscriber\x27s account is closed."

/-- The exact suspended-account message matched in `subscriptions.rs`. -/
def sub_suspended_message : String :=
  "Subscriptions could not be retrieved because the subscriber\x27s account is suspended."

/-- The exact private-subscriptions message matched in `subscriptions.rs`. -/
def sub_private_message : String :=
  "The requester is not allowed to access the requested subscriptions."

/-- The quota-exceeded message prefix matched in all four Data API fetchers. -/
def ratelimit_message_start : String :=
  "The request cannot be completed because you have exceeded your"

/-- 403-body refinement of `get_subscriptions` (`src/youtube/subscriptions.rs`,
the `match error_response.error.message.as_str()` block). -/
def classify_subscriptions_403 (message : String) : YouTubeError :=
  if message = sub_closed_message then
    .AccountClosed
  else if message = sub_suspended_message then
    .AccountTerminated
  else if message = sub_private_message then
    .SubscriptionsPrivate
  else if starts_with message ratelimit_message_start then
    .Ratelimited
  else
    .Forbidden

/-- 403-body refinement of `get_channel` (`src/youtube/channels.rs`). -/
def classify_channels_403 (message : String) : YouTubeError :=
  if starts_with message ratelimit_message_start then
    .Ratelimited
  else
    .Forbidden

/-- 403-body refinement of `get_playlist_items` (`src/youtube/playlist_items.rs`);
textually identical to the one in `channels.rs`. -/
def classify_playlist_items_403 (message : String) : YouTubeError :=
  if starts_with message ratelimit_message_start then
    .Ratelimited
  else
    .Forbidden

/-- 403-body refinement of `populate_video_stats` (`src/youtube/videos.rs`);
textually identical to the one in `channels.rs`. -/
def classify_videos_403 (message : String) : YouTubeError :=
  if starts_with message ratelimit_message_start then
    .Ratelimited
  else
    .Forbidden

/-- Status dispatch shared (by textual duplication) by the four Data API
fetchers (`channels.rs`, `subscriptions.rs`, `playlist_items.rs`, `videos.rs`):
the `match resp.status()` block. `none` means "OK, continue processing"; the
403 arm decodes the body and applies the given per-endpoint refinement. -/
def classify_data_api_status (refine403 : String → YouTubeError)
    (resp : HttpResponse) : Option YouTubeError :=
  if resp.status = 429 then some .Ratelimited
  else if resp.status = 403 then
    match resp.errorBody with
    | .error e => some (.ParseError e)
    | .ok body => some (refine403 body.message)
  else if resp.status = 404 then some .NotFound
  else if resp.status = 401 then some .Unauthorized
  else if resp.status = 500 ∨ resp.status = 503 then some .InternalServerError
  else if resp.status = 200 then none
  else
    match resp.rawBody with
    | .error e => some (.ParseError e)
    | .ok _ => some (.UnknownStatusCode resp.status)

/-- Status classification of `get_subscriptions` (`src/youtube/subscriptions.rs`,
lines 84-125). -/
def classify_subscriptions_status (resp : HttpResponse) : Option YouTubeError :=
  classify_data_api_status classify_subscriptions_403 resp

/-- Status classification of `get_channel` (`src/youtube/channels.rs`,
lines 130-157). -/
def classify_channels_status (resp : HttpResponse) : Option YouTubeError :=
  classify_data_api_status classify_channels_403 resp

/-- Status classification of `get_playlist_items`
(`src/youtube/playlist_items.rs`). -/
def classify_playlist_items_status (resp : HttpResponse) : Option YouTubeError :=
  classify_data_api_status classify_playlist_items_403 resp

/-- Status classification of `populate_video_stats` (`src/youtube/videos.rs`). -/
def classify_videos_status (resp : HttpResponse) : Option YouTubeError :=
  classify_data_api_status classify_videos_403 resp

/-- Status classification of `resolve_url` (`src/youtubei/resolve_url.rs`,
lines 85-97): only OK, 404 and 401 are given dedicated arms; every other
status falls to the unknown-status branch (which first reads the body text). -/
def classify_resolve_url_status (resp : HttpResponse) : Option YouTubeError :=
  if resp.status = 200 then none
  else if resp.status = 404 then some .NotFound
  else if resp.status = 401 then some .Unauthorized
  else
    match resp.rawBody with
    | .error e => some (.ParseError e)
    | .ok _ => some (.UnknownStatusCode resp.status)

/-- Status classification of `enrich_channel_data` (`src/youtubei/browse.rs`,
lines 205 and 271-274): anything other than OK is an unknown-status failure
(the body is not read there). -/
def classify_browse_status (status : Nat) : Option YouTubeError :=
  if status = 200 then none
  else some (.UnknownStatusCode status)

/-- Verification status of a channel, from `src/models.rs`. -/
inductive VerificationStatus where
  | None
  | Verified
  | OAC
deriving DecidableEq, Repr

/-- Canonical channel record, from `src/models.rs` (`Channel`). The four
fields after `analytics_account_id` are the enrichment-only fields, filled
only by `enrich_channel_data`. -/
structure Channel where
  user_id : String
  display_name : Option String := none
  description : Option String := none
  handle : Option String := none
  profile_picture : Option String := none
  banner : Option String := none
  created_at : Int := 0
  country : Option String := none
  view_count : Int := 0
  subscriber_count : Int := 0
  video_count : Int := 0
  made_for_kids : Bool := false
  keywords : Option (List String) := none
  trailer : Option String := none
  analytics_account_id : Option String := none
  conditional_redirect : Option String := none
  -- `no_index` in the Rust source; `no_index` is a reserved word in Lean
  noIndex : Option Bool := none
  verification : Option VerificationStatus := none
  blocked_countries : Option (List String) := none
deriving DecidableEq, Repr

/-- Subscription list item, from `src/models.rs`. -/
structure Subscription where
  channel_id : String
  title : String
  created_at : Int
  profile_picture : Option String := none
deriving DecidableEq, Repr

/-- Result of the URL-resolution primitive, from
`src/youtubei/resolve_url.rs` (`ResolveUrlResult`). -/
inductive ResolveUrlResult where
  | BrowseEndpoint (browse_id : String)
  | UrlEndpoint (url : String)
deriving DecidableEq, Repr

/-- Keyword tokenizer of `get_channel` (`src/youtube/channels.rs`,
lines 249-274): the closure mapped over the raw `keywords` string. One step
of the character scan; state is (finished tags, current tag, in-quotes flag). -/
def keywords_step (st : List String × String × Bool) (c : Char) :
    List String × String × Bool :=
  let (tags, current_tag, in_quotes) := st
  if c = '"' then
    (tags, current_tag, !in_quotes)
  else if c = ' ' ∧ ¬in_quotes then
    if ¬current_tag.isEmpty then
      (tags ++ [rust_trim current_tag], "", in_quotes)
    else
      (tags, current_tag, in_quotes)
  else if c = '\\' then
    (tags, current_tag, in_quotes)
  else
    (tags, current_tag.push c, in_quotes)

/-- Keyword tokenizer of `get_channel` (`src/youtube/channels.rs`,
lines 249-274): scan every character, flush the trailing tag if non-empty,
drop empty tokens. -/
def parse_keywords (k : String) : List String :=
  let st := k.toList.foldl keywords_step ([], "", false)
  let tags := if ¬st.2.1.isEmpty then st.1 ++ [rust_trim st.2.1] else st.1
  tags.filter (fun s => !s.isEmpty)

/-! Innertube browse response, from `src/youtubei/browse.rs` (the serde
projection structs). Field and struct names follow the Rust source. -/

/-- `ClientResource` of `src/youtubei/browse.rs`. -/
structure ClientResource where
  image_name : String
deriving DecidableEq, Repr

/-- `ImageSource` of `src/youtubei/browse.rs`. -/
structure ImageSource where
  client_resource : ClientResource
deriving DecidableEq, Repr

/-- `Image` of `src/youtubei/browse.rs`. -/
structure Image where
  sources : List ImageSource
deriving DecidableEq, Repr

/-- `ImageType` of `src/youtubei/browse.rs`. -/
structure ImageType where
  image : Image
deriving DecidableEq, Repr

/-- `ElementType` of `src/youtubei/browse.rs`. -/
structure ElementType where
  image_type : ImageType
deriving DecidableEq, Repr

/-- `Element` of `src/youtubei/browse.rs`. -/
structure Element where
  type : ElementType
deriving DecidableEq, Repr

/-- `AttachmentRun` of `src/youtubei/browse.rs`. -/
structure AttachmentRun where
  element : Element
deriving DecidableEq, Repr

/-- `Text` of `src/youtubei/browse.rs`. -/
structure TitleText where
  attachment_runs : Option (List AttachmentRun)
deriving DecidableEq, Repr

/-- `DynamicTextViewModel` of `src/youtubei/browse.rs`. -/
structure DynamicTextViewModel where
  text : TitleText
deriving DecidableEq, Repr

/-- `Title` of `src/youtubei/browse.rs`. -/
structure Title where
  dynamic_text_view_model : DynamicTextViewModel
deriving DecidableEq, Repr

/-- `PageHeaderViewModel` of `src/youtubei/browse.rs`. -/
structure PageHeaderViewModel where
  title : Title
deriving DecidableEq, Repr

/-- `Content` of `src/youtubei/browse.rs`. -/
structure Content where
  page_header_view_model : PageHeaderViewModel
deriving DecidableEq, Repr

/-- `PageHeaderRenderer` of `src/youtubei/browse.rs`. -/
structure PageHeaderRenderer where
  content : Content
deriving DecidableEq, Repr

/-- `Header` of `src/youtubei/browse.rs`. -/
structure Header where
  page_header_renderer : PageHeaderRenderer
deriving DecidableEq, Repr

/-- `BrowseEndpoint` of `src/youtubei/browse.rs`. -/
structure BrowseEndpointData where
  browse_id : String
deriving DecidableEq, Repr

/-- `Endpoint` of `src/youtubei/browse.rs`. -/
structure EndpointData where
  browse_endpoint : BrowseEndpointData
deriving DecidableEq, Repr

/-- `NavigateAction` of `src/youtubei/browse.rs`. -/
structure NavigateAction where
  endpoint : EndpointData
deriving DecidableEq, Repr

/-- `OnResponseReceivedAction` of `src/youtubei/browse.rs`. -/
structure OnResponseReceivedAction where
  navigate_action : NavigateAction
deriving DecidableEq, Repr

/-- `MicroformatDataRenderer` of `src/youtubei/browse.rs`. -/
structure MicroformatDataRenderer where
  noindex : Option Bool
  available_countries : Option (List String)
deriving DecidableEq, Repr

/-- `Microformat` of `src/youtubei/browse.rs`. -/
structure Microformat where
  microformat_data_renderer : MicroformatDataRenderer
deriving DecidableEq, Repr

/-- `ChannelMetadataRenderer` of `src/youtubei/browse.rs`. -/
structure ChannelMetadataRenderer where
  owner_urls : Option (List String)
deriving DecidableEq, Repr

/-- `Metadata` of `src/youtubei/browse.rs`. -/
structure Metadata where
  channel_metadata_renderer : ChannelMetadataRenderer
deriving DecidableEq, Repr

/-- `BrowseResponse` of `src/youtubei/browse.rs`. -/
structure BrowseResponse where
  header : Option Header := none
  on_response_received_actions : Option (List OnResponseReceivedAction) := none
  microformat : Option Microformat := none
  metadata : Option Metadata := none
deriving DecidableEq, Repr

/-- `ALL_COUNTRIES` of `src/youtubei/browse.rs`, lines 8-25. -/
def ALL_COUNTRIES : List String := [
  "AD", "AE", "AF", "AG", "AI", "AL", "AM", "AO", "AQ", "AR", "AS", "AT", "AU", "AW", "AX", "AZ",
  "BA", "BB", "BD", "BE", "BF", "BG", "BH", "BI", "BJ", "BL", "BM", "BN", "BO", "BQ", "BR", "BS",
  "BT", "BV", "BW", "BY", "BZ", "CA", "CC", "CD", "CF", "CG", "CH", "CI", "CK", "CL", "CM", "CN",
  "CO", "CR", "CU", "CV", "CW", "CX", "CY", "CZ", "DE", "DJ", "DK", "DM", "DO", "DZ", "EC", "EE",
  "EG", "EH", "ER", "ES", "ET", "FI", "FJ", "FK", "FM", "FO", "FR", "GA", "GB", "GD", "GE", "GF",
  "GG", "GH", "GI", "GL", "GM", "GN", "GP", "GQ", "GR", "GS", "GT", "GU", "GW", "GY", "HK", "HM",
  "HN", "HR", "HT", "HU", "ID", "IE", "IL", "IM", "IN", "IO", "IQ", "IR", "IS", "IT", "JE", "JM",
  "JO", "JP", "KE", "KG", "KH", "KI", "KM", "KN", "KP", "KR", "KW", "KY", "KZ", "LA", "LB", "LC",
  "LI", "LK", "LR", "LS", "LT", "LU", "LV", "LY", "MA", "MC", "MD", "ME", "MF", "MG", "MH", "MK",
  "ML", "MM", "MN", "MO", "MP", "MQ", "MR", "MS", "MT", "MU", "MV", "MW", "MX", "MY", "MZ", "NA",
  "NC", "NE", "NF", "NG", "NI", "NL", "NO", "NP", "NR", "NU", "NZ", "OM", "PA", "PE", "PF", "PG",
  "PH", "PK", "PL", "PM", "PN", "PR", "PS", "PT", "PW", "PY", "QA", "RE", "RO", "RS", "RU", "RW",
  "SA", "SB", "SC", "SD", "SE", "SG", "SH", "SI", "SJ", "SK", "SL", "SM", "SN", "SO", "SR", "SS",
  "ST", "SV", "SX", "SY", "SZ", "TC", "TD", "TF", "TG", "TH", "TJ", "TK", "TL", "TM", "TN", "TO",
  "TR", "TT", "TV", "TW", "TZ", "UA", "UG", "UM", "US", "UY", "UZ", "VA", "VC", "VE", "VG", "VI",
  "VN", "VU", "WF", "WS", "YE", "YT", "ZA", "ZM", "ZW"]

/-- Outcome of running the body of `enrich_channel_data` on a decoded OK
response. `panicked` models the Rust `sources[0]` index going out of bounds. -/
inductive EnrichOutcome where
  | ok (channel : Channel)
  | panicked
deriving DecidableEq, Repr

/-- Badge extraction of `enrich_channel_data` (`src/youtubei/browse.rs`,
lines 224-234): the first attachment run's first image source's name.
`attachment_runs.and_then(first)` gives no badge without failure, but a first
run with an empty `sources` vector makes the Rust `sources[0]` index panic,
modelled as `none`; otherwise the optional badge name is returned. -/
def extract_badge (header : Header) : Option (Option String) :=
  match header.page_header_renderer.content.page_header_view_model.title.dynamic_text_view_model.text.attachment_runs with
  | none => some none
  | some runs =>
    match runs.head? with
    | none => some none
    | some run =>
      match run.element.type.image_type.image.sources.head? with
      | none => none
      | some source => some (some source.client_resource.image_name)

/-- Badge-to-status mapping of `enrich_channel_data`
(`src/youtubei/browse.rs`, lines 236-240). -/
def verification_of_badge : Option String → VerificationStatus
  | some "AUDIO_BADGE" => .OAC
  | some "CHECK_CIRCLE_FILLED" => .Verified
  | _ => .None

/-- Verification step of `enrich_channel_data` (`src/youtubei/browse.rs`,
lines 224-241): only runs when the response has a header; `none` models the
`sources[0]` panic. -/
def verification_step (channel : Channel) (response : BrowseResponse) :
    Option Channel :=
  match response.header with
  | none => some channel
  | some header =>
    match extract_badge header with
    | none => none
    | some badge =>
      some { channel with verification := some (verification_of_badge badge) }

/-- Microformat step of `enrich_channel_data` (`src/youtubei/browse.rs`,
lines 244-256): copy `noindex` and compute the blocked-country list as the
set difference of `ALL_COUNTRIES` and the available list, stored as `none`
when the difference is empty. -/
def microformat_step (channel : Channel) (response : BrowseResponse) : Channel :=
  match response.microformat with
  | none => channel
  | some microformat =>
    let channel := { channel with
      noIndex := microformat.microformat_data_renderer.noindex }
    match microformat.microformat_data_renderer.available_countries with
    | none => channel
    | some available =>
      let blocked := ALL_COUNTRIES.filter (fun s => !available.contains s)
      { channel with
        blocked_countries := if blocked.isEmpty then none else some blocked }

/-- Owner-URL step of `enrich_channel_data` (`src/youtubei/browse.rs`,
lines 258-267): the first owner URL matching the handle pattern overwrites
the channel's handle. -/
def owner_urls_step (channel : Channel) (response : BrowseResponse) : Channel :=
  match response.metadata with
  | none => channel
  | some metadata =>
    match metadata.channel_metadata_renderer.owner_urls with
    | none => channel
    | some owner_urls =>
      match owner_urls.find? (fun url => starts_with url "http://www.youtube.com/@") with
      | none => channel
      | some url =>
        { channel with handle := some (url.drop "http://www.youtube.com/@".length) }

/-- Post-redirect part of the OK branch of `enrich_channel_data`
(`src/youtubei/browse.rs`, lines 223-269): verification badge, microformat
data, owner URLs, in that order. -/
def enrich_after_redirect (channel : Channel) (response : BrowseResponse) :
    EnrichOutcome :=
  match verification_step channel response with
  | none => .panicked
  | some channel =>
    .ok (owner_urls_step (microformat_step channel response) response)

/-- OK branch of `enrich_channel_data` (`src/youtubei/browse.rs`,
lines 206-269): if the first navigation action's browse id differs from the
input channel's id, set only `conditional_redirect` and return; otherwise run
the remaining extraction steps. -/
def enrich_ok (channel : Channel) (response : BrowseResponse) : EnrichOutcome :=
  match response.on_response_received_actions with
  | some actions =>
    match actions.head? with
    | some action =>
      if action.navigate_action.endpoint.browse_endpoint.browse_id ≠ channel.user_id then
        .ok { channel with conditional_redirect := some action.navigate_action.endpoint.browse_endpoint.browse_id }
      else
        enrich_after_redirect channel response
    | none => enrich_after_redirect channel response
  | none => enrich_after_redirect channel response

/-- Redirect target detected by `enrich_ok`, as a derived observer used to
state properties: the first navigation action's browse id when it differs
from the channel's id. -/
def redirect_target (channel : Channel) (response : BrowseResponse) :
    Option String :=
  match response.on_response_received_actions with
  | some actions =>
    match actions.head? with
    | some action =>
      if action.navigate_action.endpoint.browse_endpoint.browse_id ≠ channel.user_id then
        some action.navigate_action.endpoint.browse_endpoint.browse_id
      else none
    | none => none
  | none => none

/-- Noindex value carried by a browse response, as a derived observer. -/
def response_noindex (response : BrowseResponse) : Option Bool :=
  match response.microformat with
  | none => none
  | some microformat => microformat.microformat_data_renderer.noindex

/-- Blocked-country list carried by a browse response, as a derived
observer mirroring `microformat_step`. -/
def response_blocked (response : BrowseResponse) : Option (List String) :=
  match response.microformat with
  | none => none
  | some microformat =>
    match microformat.microformat_data_renderer.available_countries with
    | none => none
    | some available =>
      let blocked := ALL_COUNTRIES.filter (fun s => !available.contains s)
      if blocked.isEmpty then none else some blocked

/-- `LookupType` of `src/youtube/channels.rs`: how `get_channel` addresses
the Data API. -/
inductive YTLookupType where
  | Username (name : String)
  | Handle (handle : String)
  | ChannelID (channel_id : String)
deriving DecidableEq, Repr

/-- `LookupType` of `src/api/types.rs`: the caller-declared identifier kind
of a channel lookup request. -/
inductive ApiLookupType where
  | CustomUrl
  | Vanity
  | Username
  | Handle
  | ChannelId
deriving DecidableEq, Repr

/-- `ApiError` of `src/api/error.rs`. -/
inductive ApiError where
  | YouTubeError (e : YouTubeError)
  | InvalidRequest (msg : String)
  | NotFound (msg : String)
deriving DecidableEq, Repr

/-- `ChannelLookupResponse` of `src/api/types.rs`. -/
structure ChannelLookupResponse where
  channel : Channel
  redirect_url : Option String
deriving DecidableEq, Repr

/-- One upstream call issued by the handler, recorded in a trace so that
ordering/short-circuit properties can be stated. -/
inductive UpstreamCall where
  | resolve (url : String)
  | fetch (lookup : YTLookupType)
  | enrichData (channel_id : String)
  | subscriptions (channel_id : String) (page_token : Option String) (max_results : Nat)
deriving DecidableEq, Repr

/-- Whether a trace entry is a channel fetch (`get_channel`). -/
def UpstreamCall.isFetch : UpstreamCall → Bool
  | .fetch _ => true
  | _ => false

/-- The vanity collision-probe test (`src/api/handlers.rs`, the
`if let Ok(Some(ResolveUrlResult::BrowseEndpoint { browse_id })) = ...
{ if browse_id == main_channel_id { ... } }` pattern): a probe hits exactly
when it resolved to a browse endpoint whose id equals the main id. -/
def probe_hit (result : Except YouTubeError (Option ResolveUrlResult))
    (main_channel_id : String) : Bool :=
  match result with
  | .ok (some (.BrowseEndpoint browse_id)) => browse_id == main_channel_id
  | _ => false

/-- The message selection of `check_channel_status` (`src/api/handlers.rs`,
lines 31-39), as a function of the probe outcome. -/
def probe_message (result : Except YouTubeError (List Subscription × Option String)) :
    String :=
  match result with
  | .error .AccountTerminated => "This channel has been terminated"
  | .error .AccountClosed => "This channel has been deleted"
  | _ => "Channel not found"

/-- Oracle environment: the outcome of each upstream primitive for this
request. Network effects of `resolve_url`, `get_channel`,
`enrich_channel_data` and `get_subscriptions` are modelled as total
functions from their arguments to their (already classified) results. -/
structure Env where
  resolve : String → Except YouTubeError (Option ResolveUrlResult)
  getChannel : YTLookupType → Except YouTubeError Channel
  enrich : Channel → Except YouTubeError Channel
  getSubscriptions : String → Option String → Nat →
    Except YouTubeError (List Subscription × Option String)

/-- The handler's enrichment call site (`src/api/handlers.rs`, the
`if let Err(e) = enrich_channel_data(...)` pattern repeated in every branch):
an enrichment failure is logged and the un-enriched channel kept. -/
def apply_enrich (env : Env) (channel : Channel) : Channel :=
  match env.enrich channel with
  | .ok enriched => enriched
  | .error _ => channel

/-- `check_channel_status` of `src/api/handlers.rs` (lines 29-40): a
page-size-1 subscriptions probe whose classification is read and always
converted into some not-found error. Returns the error and the trace. -/
def check_channel_status (env : Env) (channel_id : String) :
    ApiError × List UpstreamCall :=
  (ApiError.NotFound (probe_message (env.getSubscriptions channel_id none 1)),
    [.subscriptions channel_id none 1])

/-- `CustomUrl` branch of `channel_handler` (`src/api/handlers.rs`,
lines 49-92). -/
def handle_custom_url (env : Env) (id : String) :
    Except ApiError ChannelLookupResponse × List UpstreamCall :=
  let plus_url := "youtube.com/+" ++ id
  let t0 := [UpstreamCall.resolve plus_url]
  match env.resolve plus_url with
  | .ok none => (.error (.NotFound "Custom URL not found"), t0)
  | .error .NotFound => (.error (.NotFound "Custom URL not found"), t0)
  | .error e => (.error (.YouTubeError e), t0)
  | .ok (some (.UrlEndpoint _)) =>
    (.error (.InvalidRequest "Invalid custom URL - unexpected URL endpoint"), t0)
  | .ok (some (.BrowseEndpoint browse_id)) =>
    let t1 := t0 ++ [UpstreamCall.fetch (.ChannelID browse_id)]
    match env.getChannel (.ChannelID browse_id) with
    | .error e => (.error (.YouTubeError e), t1)
    | .ok channel =>
      let t2 := t1 ++ [UpstreamCall.enrichData channel.user_id]
      let channel := apply_enrich env channel
      let url := "youtube.com/" ++ to_uppercase id
      let t3 := t2 ++ [UpstreamCall.resolve url]
      match env.resolve url with
      | .error e => (.error (.YouTubeError e), t3)
      | .ok resolve_result =>
        let redirect_url :=
          match resolve_result with
          | some (.UrlEndpoint url) => some url
          | _ => none
        (.ok ⟨channel, redirect_url⟩, t3)

/-- `Vanity` branch of `channel_handler` (`src/api/handlers.rs`,
lines 93-135). The two collision probes inspect their result only through
the `if let Ok(Some(BrowseEndpoint ..))` pattern. -/
def handle_vanity (env : Env) (id : String) :
    Except ApiError ChannelLookupResponse × List UpstreamCall :=
  let url := "youtube.com/" ++ to_uppercase id
  let t0 := [UpstreamCall.resolve url]
  match env.resolve url with
  | .error e => (.error (.YouTubeError e), t0)
  | .ok resolve_result =>
    match resolve_result with
    | some (.BrowseEndpoint main_channel_id) =>
      let plus_url := "youtube.com/+" ++ id
      let t1 := t0 ++ [UpstreamCall.resolve plus_url]
      if probe_hit (env.resolve plus_url) main_channel_id then
        (.error (.NotFound "Not a vanity URL"), t1)
      else
        let user_url := "youtube.com/user/" ++ id
        let t2 := t1 ++ [UpstreamCall.resolve user_url]
        if probe_hit (env.resolve user_url) main_channel_id then
          (.error (.NotFound "Not a vanity URL"), t2)
        else
          let t3 := t2 ++ [UpstreamCall.fetch (.ChannelID main_channel_id)]
          match env.getChannel (.ChannelID main_channel_id) with
          | .error e => (.error (.YouTubeError e), t3)
          | .ok channel =>
            let t4 := t3 ++ [UpstreamCall.enrichData channel.user_id]
            (.ok ⟨apply_enrich env channel, none⟩, t4)
    | _ => (.error (.NotFound "Invalid vanity URL"), t0)

/-- Handle-redirect check shared by the `Username`, `Handle` and `ChannelId`
branches (`src/api/handlers.rs`, the `if let Some(handle) = channel.handle`
block): re-resolve the handle URL and surface a redirect only for a
URL-endpoint result. -/
def handle_redirect_check (env : Env) (channel : Channel) :
    Except ApiError (Option String) × List UpstreamCall :=
  match channel.handle with
  | none => (.ok none, [])
  | some handle =>
    let url := "youtube.com/@" ++ handle
    let t := [UpstreamCall.resolve url]
    match env.resolve url with
    | .error e => (.error (.YouTubeError e), t)
    | .ok resolve_result =>
      match resolve_result with
      | some (.UrlEndpoint url) => (.ok (some url), t)
      | _ => (.ok none, t)

/-- `Username` and `Handle` branches of `channel_handler`
(`src/api/handlers.rs`, lines 136-191), which differ only in the
`get_channel` lookup they issue. -/
def handle_direct (env : Env) (lookup : YTLookupType) :
    Except ApiError ChannelLookupResponse × List UpstreamCall :=
  let t0 := [UpstreamCall.fetch lookup]
  match env.getChannel lookup with
  | .error e => (.error (.YouTubeError e), t0)
  | .ok channel =>
    let t1 := t0 ++ [UpstreamCall.enrichData channel.user_id]
    let channel := apply_enrich env channel
    match handle_redirect_check env channel with
    | (.error e, t) => (.error e, t1 ++ t)
    | (.ok redirect_url, t) => (.ok ⟨channel, redirect_url⟩, t1 ++ t)

/-- `ChannelId` branch of `channel_handler` (`src/api/handlers.rs`,
lines 192-226): a `NotFound` from the direct fetch is diverted into the
secondary status probe. -/
def handle_channel_id (env : Env) (id : String) :
    Except ApiError ChannelLookupResponse × List UpstreamCall :=
  let t0 := [UpstreamCall.fetch (.ChannelID id)]
  match env.getChannel (.ChannelID id) with
  | .error .NotFound =>
    let (err, t) := check_channel_status env id
    (.error err, t0 ++ t)
  | .error e => (.error (.YouTubeError e), t0)
  | .ok channel =>
    let t1 := t0 ++ [UpstreamCall.enrichData channel.user_id]
    let channel := apply_enrich env channel
    match handle_redirect_check env channel with
    | (.error e, t) => (.error e, t1 ++ t)
    | (.ok redirect_url, t) => (.ok ⟨channel, redirect_url⟩, t1 ++ t)

/-- `channel_handler` of `src/api/handlers.rs` (lines 42-233), as a function
of the oracle environment, the declared lookup kind and the identifier.
Returns the handler result together with the trace of upstream calls. -/
def channel_handler (env : Env) (ty : ApiLookupType) (id : String) :
    Except ApiError ChannelLookupResponse × List UpstreamCall :=
  match ty with
  | .CustomUrl => handle_custom_url env id
  | .Vanity => handle_vanity env id
  | .Username => handle_direct env (.Username id)
  | .Handle => handle_direct env (.Handle id)
  | .ChannelId => handle_channel_id env id

/-- Whether an `ApiError` is the not-found variant. -/
def ApiError.isNotFoundErr : ApiError → Bool
  | .NotFound _ => true
  | _ => false

/-- Whether a `YouTubeError` is a transport or decode failure (the variants
produced by `send()`/`json()`/`text()` failures rather than by status
classification). -/
def YouTubeError.is_transport_or_decode : YouTubeError → Bool
  | .ParseError _ => true
  | .HttpError _ => true
  | .LegacyHttpError _ => true
  | .ProtobufError _ => true
  | .Other _ => true
  | _ => false

/-- The spec's §4.3 status contract for a Data API fetcher, as one predicate:
429/404/401/500/503 map to their dedicated taxonomy values, any other non-OK
status (with a readable body) maps to the opaque unknown-status failure
carrying the code, and only status 200 classifies as success. -/
def data_api_status_contract (classify : HttpResponse → Option YouTubeError) : Prop :=
  ∀ resp : HttpResponse,
    (resp.status = 429 → classify resp = some .Ratelimited) ∧
    (resp.status = 404 → classify resp = some .NotFound) ∧
    (resp.status = 401 → classify resp = some .Unauthorized) ∧
    (resp.status = 500 ∨ resp.status = 503 → classify resp = some .InternalServerError) ∧
    (resp.status ∉ ([200, 429, 403, 404, 401, 500, 503] : List Nat) →
      ∀ b, resp.rawBody = .ok b → classify resp = some (.UnknownStatusCode resp.status)) ∧
    (classify resp = none → resp.status = 200)

/-! Concrete inputs used by witnesses and counterexamples. -/

/-- A 429 response (bodies never consulted on that path). -/
def resp429 : HttpResponse := ⟨429, .error "not json", .ok "quota body"⟩

/-- A header whose title carries no attachment runs. -/
def exHeaderNoRuns : Header := ⟨⟨⟨⟨⟨⟨⟨none⟩⟩⟩⟩⟩⟩⟩

/-- An attachment run whose image has an empty `sources` vector. -/
def exRunNoSources : AttachmentRun := ⟨⟨⟨⟨⟨[]⟩⟩⟩⟩⟩

/-- A header whose first attachment run has an empty `sources` vector. -/
def exHeaderEmptySources : Header := ⟨⟨⟨⟨⟨⟨⟨some [exRunNoSources]⟩⟩⟩⟩⟩⟩⟩

/-- A channel fresh out of `get_channel`: enrichment fields all unset. -/
def exCh3 : Channel := { user_id := "UCexample" }

/-- Browse response carrying only a runless header: no redirect, no
microformat, no metadata. -/
def exResp3 : BrowseResponse := { header := some exHeaderNoRuns }

/-- The enrichment result on `exResp3`: only `verification` was filled. -/
def exCh3' : Channel := { exCh3 with verification := some VerificationStatus.None }

/-- Browse response whose first navigation action redirects to another
channel and whose header's first attachment run has no sources. -/
def exResp10 : BrowseResponse :=
  { header := some exHeaderEmptySources,
    on_response_received_actions := some [⟨⟨⟨⟨"UCother"⟩⟩⟩⟩] }

/-- Browse response with no redirect and a first attachment run with no
sources. -/
def exResp10b : BrowseResponse := { header := some exHeaderEmptySources }

/-- Browse response whose microformat lists every country as available. -/
def exRespAllAvailable : BrowseResponse :=
  { microformat := some ⟨⟨some false, some ALL_COUNTRIES⟩⟩ }

/-- Browse response whose microformat lists every country except US. -/
def exRespNoUS : BrowseResponse :=
  { microformat := some ⟨⟨some false, some (ALL_COUNTRIES.erase "US")⟩⟩ }

/-- Oracle environment for the vanity-collision witness: the bare uppercased
URL and the "+name" form resolve to the same browse id. -/
def env5 : Env where
  resolve := fun url =>
    if url = "youtube.com/NAME" then .ok (some (.BrowseEndpoint "UCmain"))
    else if url = "youtube.com/+name" then .ok (some (.BrowseEndpoint "UCmain"))
    else .ok none
  getChannel := fun _ => .error .NotFound
  enrich := fun c => .ok c
  getSubscriptions := fun _ _ _ => .ok ([], none)

/-- Oracle environment for the channel-id probe witness: the direct fetch
404s and the subscriptions probe classifies as a suspended account. -/
def env6 : Env where
  resolve := fun _ => .ok none
  getChannel := fun _ => .error .NotFound
  enrich := fun c => .ok c
  getSubscriptions := fun _ _ _ => .error .AccountTerminated

/-- Oracle environment for the custom-URL counterexample: the "+name" form
resolves to a redirect-target URL. -/
def env7 : Env where
  resolve := fun url =>
    if url = "youtube.com/+abc" then
      .ok (some (.UrlEndpoint "http://www.youtube.com/channel/UCelse"))
    else .ok none
  getChannel := fun _ => .error .NotFound
  enrich := fun c => .ok c
  getSubscriptions := fun _ _ _ => .ok ([], none)

/-- Channel returned by the fetch oracle of `env8`. -/
def exCh8 : Channel := { user_id := "UCmain" }

/-- Oracle environment for the swallowed-probe counterexample: in a vanity
lookup, the "+name" collision probe fails with a transport error while
everything else succeeds. -/
def env8 : Env where
  resolve := fun url =>
    if url = "youtube.com/NAME" then .ok (some (.BrowseEndpoint "UCmain"))
    else if url = "youtube.com/+name" then .error (.Other "connection reset")
    else .ok none
  getChannel := fun lookup =>
    if lookup = .ChannelID "UCmain" then .ok exCh8 else .error .NotFound
  enrich := fun c => .ok c
  getSubscriptions := fun _ _ _ => .ok ([], none)

/-! Helper lemmas. -/

/-- The shared Data API status dispatch satisfies the §4.3 contract,
whatever the per-endpoint 403 refinement is. -/
lemma classify_data_api_status_contract (refine403 : String → YouTubeError) :
    data_api_status_contract (classify_data_api_status refine403) := by
  intro resp
  refine ⟨?_, ?_, ?_, ?_, ?_, ?_⟩
  · intro h; simp [classify_data_api_status, h]
  · intro h; simp [classify_data_api_status, h]
  · intro h; simp [classify_data_api_status, h]
  · intro h; rcases h with h | h <;> simp [classify_data_api_status, h]
  · intro h b hb
    simp only [List.mem_cons, List.not_mem_nil, or_false, not_or] at h
    obtain ⟨h200, h429, h403, h404, h401, h500, h503⟩ := h
    simp [classify_data_api_status, h200, h429, h403, h404, h401, h500, h503, hb]
  · intro h
    unfold classify_data_api_status at h
    split_ifs at h with h1 h2 h3 h4 h5 h6
    all_goals first
      | exact h6
      | simp at h
      | (revert h; cases resp.errorBody <;> simp)
      | (revert h; cases resp.rawBody <;> simp)

/-- Claim C1: on a 403 with a decoded JSON error body, classification is a
pure function of the body's message; in the subscriptions endpoint the three
exact messages map to AccountClosed, AccountTerminated and
SubscriptionsPrivate; in all four Data API endpoints the quota-exceeded
prefix maps to Ratelimited and any other message to Forbidden; outside the
subscriptions endpoint a 403 body never classifies as SubscriptionsPrivate
(nor as the account-state kinds). -/
theorem claim1_http403_message_refinement :
    (∀ (refine403 : String → YouTubeError) (msg : String) (rb : Except String String),
      classify_data_api_status refine403 ⟨403, .ok ⟨msg⟩, rb⟩ = some (refine403 msg)) ∧
    classify_subscriptions_403 sub_closed_message = .AccountClosed ∧
    classify_subscriptions_403 sub_suspended_message = .AccountTerminated ∧
    classify_subscriptions_403 sub_private_message = .SubscriptionsPrivate ∧
    (∀ msg : String, starts_with msg ratelimit_message_start = true →
      classify_subscriptions_403 msg = .Ratelimited ∧
      classify_channels_403 msg = .Ratelimited ∧
      classify_playlist_items_403 msg = .Ratelimited ∧
      classify_videos_403 msg = .Ratelimited) ∧
    (∀ msg : String, starts_with msg ratelimit_message_start = false →
      msg ≠ sub_closed_message → msg ≠ sub_suspended_message → msg ≠ sub_private_message →
      classify_subscriptions_403 msg = .Forbidden) ∧
    (∀ msg : String, starts_with msg ratelimit_message_start = false →
      classify_channels_403 msg = .Forbidden ∧
      classify_playlist_items_403 msg = .Forbidden ∧
      classify_videos_403 msg = .Forbidden) ∧
    (∀ msg : String,
      (classify_channels_403 msg = .Ratelimited ∨ classify_channels_403 msg = .Forbidden) ∧
      (classify_playlist_items_403 msg = .Ratelimited ∨ classify_playlist_items_403 msg = .Forbidden) ∧
      (classify_videos_403 msg = .Ratelimited ∨ classify_videos_403 msg = .Forbidden)) := by
  refine ⟨?_, by decide, by decide, by decide, ?_, ?_, ?_, ?_⟩
  · intro refine403 msg rb
    simp [classify_data_api_status]
  · intro msg h
    have h1 : msg ≠ sub_closed_message := by
      intro he; rw [he] at h; exact absurd h (by decide)
    have h2 : msg ≠ sub_suspended_message := by
      intro he; rw [he] at h; exact absurd h (by decide)
    have h3 : msg ≠ sub_private_message := by
      intro he; rw [he] at h; exact absurd h (by decide)
    exact ⟨by simp [classify_subscriptions_403, h, h1, h2, h3],
      by simp [classify_channels_403, h],
      by simp [classify_playlist_items_403, h],
      by simp [classify_videos_403, h]⟩
  · intro msg h h1 h2 h3
    simp [classify_subscriptions_403, h, h1, h2, h3]
  · intro msg h
    exact ⟨by simp [classify_channels_403, h],
      by simp [classify_playlist_items_403, h],
      by simp [classify_videos_403, h]⟩
  · intro msg
    refine ⟨?_, ?_, ?_⟩
    · cases h : starts_with msg ratelimit_message_start <;>
        simp [classify_channels_403, h]
    · cases h : starts_with msg ratelimit_message_start <;>
        simp [classify_playlist_items_403, h]
    · cases h : starts_with msg ratelimit_message_start <;>
        simp [classify_videos_403, h]

/-- Witness for C1 at concrete messages: the closed-account message in the
subscriptions endpoint, and a quota-exceeded message in every endpoint. -/
theorem claim1_http403_message_refinement_witness :
    classify_data_api_status classify_subscriptions_403
      ⟨403, .ok ⟨sub_closed_message⟩, .ok ""⟩ = some .AccountClosed ∧
    classify_subscriptions_403 ratelimit_message_start = .Ratelimited ∧
    classify_channels_403 ratelimit_message_start = .Ratelimited ∧
    classify_playlist_items_403 ratelimit_message_start = .Ratelimited ∧
    classify_videos_403 ratelimit_message_start = .Ratelimited := by
  have h := claim1_http403_message_refinement
  refine ⟨?_, (h.2.2.2.2.1 ratelimit_message_start (by decide)).1,
    (h.2.2.2.2.1 ratelimit_message_start (by decide)).2.1,
    (h.2.2.2.2.1 ratelimit_message_start (by decide)).2.2.1,
    (h.2.2.2.2.1 ratelimit_message_start (by decide)).2.2.2⟩
  rw [h.1 classify_subscriptions_403 sub_closed_message (.ok ""), h.2.1]

/-- Counterexample to claim C2: `resolve_url` does not classify statuses like
the Data API fetchers do. A 429 response is classified as the opaque
unknown-status failure, not as Ratelimited. -/
theorem claim2_resolve_url_429_counterexample :
    classify_resolve_url_status resp429 = some (.UnknownStatusCode 429) ∧
    (some (YouTubeError.UnknownStatusCode 429) ≠ some YouTubeError.Ratelimited) ∧
    classify_channels_status resp429 = some .Ratelimited := by
  refine ⟨by decide, by decide, by decide⟩

/-- Claim C2 (amended): the four Data API fetchers classify statuses
identically per the §4.3 table; the two innertube components do not: the
`resolve_url` classifier has dedicated arms only for 404 and 401 and sends
every other non-OK status (429, 500, 503 and 403 included) to the opaque
unknown-status failure carrying the code, and the browse classifier sends
every non-OK status there. No classifier ever treats a non-OK status as
success. -/
theorem claim2_status_classifier_by_component :
    data_api_status_contract classify_channels_status ∧
    data_api_status_contract classify_subscriptions_status ∧
    data_api_status_contract classify_playlist_items_status ∧
    data_api_status_contract classify_videos_status ∧
    (∀ resp : HttpResponse,
      (resp.status = 404 → classify_resolve_url_status resp = some .NotFound) ∧
      (resp.status = 401 → classify_resolve_url_status resp = some .Unauthorized) ∧
      (resp.status ∉ ([200, 404, 401] : List Nat) → ∀ b, resp.rawBody = .ok b →
        classify_resolve_url_status resp = some (.UnknownStatusCode resp.status)) ∧
      (classify_resolve_url_status resp = none → resp.status = 200)) ∧
    (∀ status : Nat,
      (status ≠ 200 → classify_browse_status status = some (.UnknownStatusCode status)) ∧
      (classify_browse_status status = none → status = 200)) := by
  refine ⟨classify_data_api_status_contract _, classify_data_api_status_contract _,
    classify_data_api_status_contract _, classify_data_api_status_contract _, ?_, ?_⟩
  · intro resp
    refine ⟨?_, ?_, ?_, ?_⟩
    · intro h; simp [classify_resolve_url_status, h]
    · intro h; simp [classify_resolve_url_status, h]
    · intro h b hb
      simp only [List.mem_cons, List.not_mem_nil, or_false, not_or] at h
      obtain ⟨h200, h404, h401⟩ := h
      simp [classify_resolve_url_status, h200, h404, h401, hb]
    · intro h
      unfold classify_resolve_url_status at h
      split_ifs at h with h1 h2 h3
      all_goals first
        | exact h1
        | simp at h
        | (revert h; cases resp.rawBody <;> simp)
  · intro status
    constructor
    · intro h; simp [classify_browse_status, h]
    · intro h
      unfold classify_browse_status at h
      split_ifs at h with h1
      exact h1

/-- Witness for C2 (amended) at concrete responses: a 429 at `get_channel`
classifies as Ratelimited, a 418 at `resolve_url` as UnknownStatusCode 418,
and a 503 at the browse endpoint as UnknownStatusCode 503. -/
theorem claim2_status_classifier_witness :
    classify_channels_status resp429 = some .Ratelimited ∧
    classify_resolve_url_status ⟨418, .error "x", .ok "teapot"⟩ =
      some (.UnknownStatusCode 418) ∧
    classify_browse_status 503 = some (.UnknownStatusCode 503) := by
  refine ⟨(claim2_status_classifier_by_component.1 resp429).1 rfl,
    ((claim2_status_classifier_by_component.2.2.2.2.1 ⟨418, .error "x", .ok "teapot"⟩).2.2.1
      (by decide) "teapot" rfl),
    (claim2_status_classifier_by_component.2.2.2.2.2 503).1 (by decide)⟩

/-- Any list filtered on non-emptiness contains only non-empty strings. -/
lemma all_filter_nonempty (l : List String) :
    (l.filter (fun s => !s.isEmpty)).all (fun s => !s.isEmpty) = true := by
  simp [List.all_eq_true, List.mem_filter]

/-- Claim C4: the keyword tokenizer quote/space/backslash behaviour on the
spec's concrete inputs — the quoted example splits into the three expected
tags, an unterminated quote still flushes the last token (keeping its inner
space), a backslash between letters is deleted, a lone backslash produces no
token — and no returned token is ever empty. -/
theorem claim4_keyword_tokenizer :
    parse_keywords "\"tag one\" two \"tag three\"" = ["tag one", "two", "tag three"] ∧
    parse_keywords "\"abc def" = ["abc def"] ∧
    parse_keywords "a\\b" = ["ab"] ∧
    parse_keywords "\\" = [] ∧
    (∀ k : String, (parse_keywords k).all (fun s => !s.isEmpty) = true) := by
  refine ⟨by decide, by decide, by decide, by decide, ?_⟩
  intro k
  unfold parse_keywords
  exact all_filter_nonempty _

set_option maxRecDepth 4096

/-- Claim C9: enrichment's blocked-country list is the set difference of the
full ISO-3166 list and the available list (membership characterization);
concretely, an available list equal to the full set leaves the field unset
(`none`, not an empty list), and an available list missing exactly "US"
yields exactly `["US"]`, which lies inside the standard set. -/
theorem claim9_blocked_countries :
    (∀ (available : List String) (code : String),
      code ∈ ALL_COUNTRIES.filter (fun s => !available.contains s) ↔
        (code ∈ ALL_COUNTRIES ∧ code ∉ available)) ∧
    enrich_ok exCh3 exRespAllAvailable = .ok { exCh3 with noIndex := some false } ∧
    enrich_ok exCh3 exRespNoUS =
      .ok { exCh3 with noIndex := some false, blocked_countries := some ["US"] } ∧
    "US" ∈ ALL_COUNTRIES := by
  refine ⟨?_, by decide, by decide, by decide⟩
  intro available code
  simp [List.mem_filter]

/-- `owner_urls_step` changes no enrichment field. -/
lemma owner_urls_step_fields (ch : Channel) (r : BrowseResponse) :
    (owner_urls_step ch r).conditional_redirect = ch.conditional_redirect ∧
    (owner_urls_step ch r).noIndex = ch.noIndex ∧
    (owner_urls_step ch r).verification = ch.verification ∧
    (owner_urls_step ch r).blocked_countries = ch.blocked_countries := by
  obtain ⟨hdr, acts, mf, md⟩ := r
  cases md with
  | none => exact ⟨rfl, rfl, rfl, rfl⟩
  | some metadata =>
    obtain ⟨⟨urls⟩⟩ := metadata
    cases urls with
    | none => exact ⟨rfl, rfl, rfl, rfl⟩
    | some owner_urls =>
      cases hf : owner_urls.find? (fun url => starts_with url "http://www.youtube.com/@") with
      | none => refine ⟨?_, ?_, ?_, ?_⟩ <;> simp [owner_urls_step, hf]
      | some url => refine ⟨?_, ?_, ?_, ?_⟩ <;> simp [owner_urls_step, hf]

/-- `microformat_step` never touches the redirect or verification fields. -/
lemma microformat_step_fields (ch : Channel) (r : BrowseResponse) :
    (microformat_step ch r).conditional_redirect = ch.conditional_redirect ∧
    (microformat_step ch r).verification = ch.verification := by
  obtain ⟨hdr, acts, mf, md⟩ := r
  cases mf with
  | none => exact ⟨rfl, rfl⟩
  | some microformat =>
    obtain ⟨⟨noidx, avail⟩⟩ := microformat
    cases avail with
    | none => exact ⟨rfl, rfl⟩
    | some available => exact ⟨rfl, rfl⟩

/-- On a channel with `noIndex` unset, `microformat_step` leaves exactly the
response noindex value. -/
lemma microformat_step_noindex (ch : Channel) (r : BrowseResponse)
    (h : ch.noIndex = none) :
    (microformat_step ch r).noIndex = response_noindex r := by
  obtain ⟨hdr, acts, mf, md⟩ := r
  cases mf with
  | none => exact h
  | some microformat =>
    obtain ⟨⟨noidx, avail⟩⟩ := microformat
    cases avail with
    | none => rfl
    | some available => rfl

/-- On a channel with `blocked_countries` unset, `microformat_step` leaves
exactly the response blocked-country value. -/
lemma microformat_step_blocked (ch : Channel) (r : BrowseResponse)
    (h : ch.blocked_countries = none) :
    (microformat_step ch r).blocked_countries = response_blocked r := by
  obtain ⟨hdr, acts, mf, md⟩ := r
  cases mf with
  | none => exact h
  | some microformat =>
    obtain ⟨⟨noidx, avail⟩⟩ := microformat
    cases avail with
    | none => exact h
    | some available => rfl

/-- With no header, the verification step is the identity. -/
lemma verification_step_none (ch : Channel) (r : BrowseResponse)
    (h : r.header = none) : verification_step ch r = some ch := by
  unfold verification_step
  rw [h]

/-- With a header, a non-panicking verification step changes only the
verification field, which it always sets. -/
lemma verification_step_some_header (ch c1 : Channel) (r : BrowseResponse)
    (hd : Header) (h : r.header = some hd)
    (hv : verification_step ch r = some c1) :
    c1.conditional_redirect = ch.conditional_redirect ∧
    c1.noIndex = ch.noIndex ∧
    c1.blocked_countries = ch.blocked_countries ∧
    c1.verification.isSome = true := by
  unfold verification_step at hv
  simp only [h] at hv
  cases hb : extract_badge hd with
  | none => exact Option.noConfusion (hb ▸ hv)
  | some badge =>
    simp only [hb] at hv
    injection hv with hv
    rw [← hv]
    exact ⟨rfl, rfl, rfl, rfl⟩

/-- When the response carries a redirect to a different id, `enrich_ok`
returns immediately with only `conditional_redirect` updated. -/
lemma enrich_ok_redirect (ch : Channel) (r : BrowseResponse) (rid : String)
    (h : redirect_target ch r = some rid) :
    enrich_ok ch r = .ok { ch with conditional_redirect := some rid } := by
  obtain ⟨hdr, acts, mf, md⟩ := r
  cases acts with
  | none => exact absurd h (by simp [redirect_target])
  | some actions =>
    cases actions with
    | nil => exact absurd h (by simp [redirect_target])
    | cons action rest =>
      by_cases hid : action.navigate_action.endpoint.browse_endpoint.browse_id = ch.user_id
      · exfalso
        simp [redirect_target, hid] at h
      · have hrid : action.navigate_action.endpoint.browse_endpoint.browse_id = rid := by
          simpa [redirect_target, hid] using h
        subst hrid
        simp [enrich_ok, hid]

/-- When the response carries no redirect to a different id, `enrich_ok` is
the post-redirect pipeline. -/
lemma enrich_ok_no_redirect (ch : Channel) (r : BrowseResponse)
    (h : redirect_target ch r = none) :
    enrich_ok ch r = enrich_after_redirect ch r := by
  obtain ⟨hdr, acts, mf, md⟩ := r
  cases acts with
  | none => rfl
  | some actions =>
    cases actions with
    | nil => rfl
    | cons action rest =>
      by_cases hid : action.navigate_action.endpoint.browse_endpoint.browse_id = ch.user_id
      · simp [enrich_ok, hid]
      · exfalso
        simp [redirect_target, hid] at h

/-- Counterexample to claim C3 as stated: a successful, redirect-free
enrichment from a response carrying a runless header but no microformat sets
`verification` while leaving `noIndex` and `blocked_countries` unset — the
enrichment-only fields are not "all set together". -/
theorem claim3_enrichment_fields_counterexample :
    enrich_ok exCh3 exResp3 = .ok exCh3' ∧
    redirect_target exCh3 exResp3 = none ∧
    exCh3'.verification = some VerificationStatus.None ∧
    exCh3'.noIndex = none ∧
    exCh3'.blocked_countries = none ∧
    exCh3'.conditional_redirect = none := by
  exact ⟨by decide, by decide, by decide, by decide, by decide, by decide⟩

/-- Claim C3 (amended): starting from a channel with all enrichment fields
unset, a successful enrichment that detects a redirect sets only
`conditional_redirect`; a successful redirect-free enrichment leaves
`conditional_redirect` unset, sets `verification` exactly when the response
has a header, and sets `noIndex` and `blocked_countries` exactly to the
values the response's microformat carries (each unset when absent, and
`blocked_countries` also unset when the computed difference is empty). -/
theorem claim3_enrichment_fields_invariant (ch : Channel) (r : BrowseResponse)
    (c : Channel)
    (h0 : ch.conditional_redirect = none) (h1 : ch.noIndex = none)
    (h2 : ch.verification = none) (h3 : ch.blocked_countries = none)
    (hok : enrich_ok ch r = .ok c) :
    (∀ rid, redirect_target ch r = some rid →
      c.conditional_redirect = some rid ∧ c.noIndex = none ∧
      c.verification = none ∧ c.blocked_countries = none) ∧
    (redirect_target ch r = none →
      c.conditional_redirect = none ∧
      c.verification.isSome = r.header.isSome ∧
      c.noIndex = response_noindex r ∧
      c.blocked_countries = response_blocked r) := by
  constructor
  · intro rid hrid
    rw [enrich_ok_redirect ch r rid hrid] at hok
    injection hok with hok
    rw [← hok]
    exact ⟨rfl, h1, h2, h3⟩
  · intro hnone
    rw [enrich_ok_no_redirect ch r hnone] at hok
    unfold enrich_after_redirect at hok
    cases hv : verification_step ch r with
    | none => exact EnrichOutcome.noConfusion (hv ▸ hok)
    | some c1 =>
      simp only [hv] at hok
      injection hok with hok
      obtain ⟨o1, o2, o3, o4⟩ := owner_urls_step_fields (microformat_step c1 r) r
      obtain ⟨m1, m2⟩ := microformat_step_fields c1 r
      rw [← hok]
      cases hh : r.header with
      | none =>
        rw [verification_step_none ch r hh] at hv
        injection hv with hv
        rw [← hv] at o1 o2 o3 o4 m1 m2 ⊢
        refine ⟨?_, ?_, ?_, ?_⟩
        · rw [o1, m1, h0]
        · rw [o3, m2, h2]; rfl
        · rw [o2, microformat_step_noindex ch r h1]
        · rw [o4, microformat_step_blocked ch r h3]
      | some hd =>
        obtain ⟨v1, v2, v3, v4⟩ := verification_step_some_header ch c1 r hd hh hv
        refine ⟨?_, ?_, ?_, ?_⟩
        · rw [o1, m1, v1, h0]
        · rw [o3, m2, v4]; rfl
        · rw [o2, microformat_step_noindex c1 r (v2.trans h1)]
        · rw [o4, microformat_step_blocked c1 r (v3.trans h3)]

/-- Witness for C3 (amended): the redirect-free enrichment of `exResp3`
instantiates the invariant. -/
theorem claim3_enrichment_fields_witness :
    exCh3'.conditional_redirect = none ∧
    exCh3'.verification.isSome = exResp3.header.isSome ∧
    exCh3'.noIndex = response_noindex exResp3 ∧
    exCh3'.blocked_countries = response_blocked exResp3 :=
  (claim3_enrichment_fields_invariant exCh3 exResp3 exCh3'
    rfl rfl rfl rfl (by decide)).2 (by decide)

/-- Counterexample to claim C10 as stated: a decoded OK response whose
header's first attachment run has an empty `sources` array does NOT panic
when the response also carries a navigation redirect to a different id —
the redirect short-circuit returns before the badge is read. -/
theorem claim10_badge_redirect_counterexample :
    exResp10.header = some exHeaderEmptySources ∧
    exHeaderEmptySources.page_header_renderer.content.page_header_view_model.title.dynamic_text_view_model.text.attachment_runs = some [exRunNoSources] ∧
    exRunNoSources.element.type.image_type.image.sources = [] ∧
    enrich_ok exCh3 exResp10 =
      .ok { exCh3 with conditional_redirect := some "UCother" } ∧
    enrich_ok exCh3 exResp10 ≠ .panicked := by
  exact ⟨by decide, by decide, by decide, by decide, by decide⟩

/-- Claim C10 (amended): in any decoded OK response that does not trigger
the redirect short-circuit, a header whose non-empty attachment-run list has
a first run with an empty `sources` array makes enrichment panic (the
unconditional `sources[0]` index), rather than producing a channel or a
classified error; so completing without panic requires a non-empty `sources`
on the first run. -/
theorem claim10_badge_sources_panic (ch : Channel) (r : BrowseResponse)
    (hd : Header) (runs : List AttachmentRun) (run : AttachmentRun)
    (hnored : redirect_target ch r = none)
    (hh : r.header = some hd)
    (hruns : hd.page_header_renderer.content.page_header_view_model.title.dynamic_text_view_model.text.attachment_runs = some runs)
    (hfirst : runs.head? = some run)
    (hsrc : run.element.type.image_type.image.sources = []) :
    enrich_ok ch r = .panicked := by
  rw [enrich_ok_no_redirect ch r hnored]
  have hv : verification_step ch r = none := by
    unfold verification_step extract_badge
    simp only [hh, hruns, hfirst, hsrc, List.head?_nil]
  unfold enrich_after_redirect
  simp only [hv]

/-- Witness for C10 (amended): the redirect-free response with an empty
`sources` array panics. -/
theorem claim10_badge_sources_panic_witness :
    enrich_ok exCh3 exResp10b = .panicked :=
  claim10_badge_sources_panic exCh3 exResp10b exHeaderEmptySources
    [exRunNoSources] exRunNoSources
    (by decide) (by decide) (by decide) (by decide) (by decide)

/-- A probe that did not resolve to a browse endpoint with the main id does
not hit. -/
lemma probe_hit_eq_false (result : Except YouTubeError (Option ResolveUrlResult))
    (main_channel_id : String)
    (h : result ≠ .ok (some (.BrowseEndpoint main_channel_id))) :
    probe_hit result main_channel_id = false := by
  unfold probe_hit
  rcases result with e | o
  · rfl
  · rcases o with _ | r
    · rfl
    · rcases r with b | u
      · simp only [beq_eq_false_iff_ne, ne_eq]
        intro hb
        exact h (by rw [hb])
      · rfl

/-- A probe that resolved to the main id hits. -/
lemma probe_hit_eq_true (main_channel_id : String) :
    probe_hit (.ok (some (.BrowseEndpoint main_channel_id))) main_channel_id = true := by
  simp [probe_hit]

/-- Claim C5: in a Vanity lookup whose bare uppercased URL resolves to
browse id `main_id`, a collision of either the "+name" probe or the
"/user/name" probe with `main_id` makes the request fail with the terminal
"Not a vanity URL" error and no channel fetch is issued; with no collision
the channel is fetched by `main_id`, enriched, and no redirect URL is
returned. -/
theorem claim5_vanity_collision (env : Env) (id main_id : String)
    (hmain : env.resolve ("youtube.com/" ++ to_uppercase id) =
      .ok (some (.BrowseEndpoint main_id))) :
    ((env.resolve ("youtube.com/+" ++ id) = .ok (some (.BrowseEndpoint main_id)) ∨
      env.resolve ("youtube.com/user/" ++ id) = .ok (some (.BrowseEndpoint main_id))) →
      (handle_vanity env id).1 = .error (.NotFound "Not a vanity URL") ∧
      (handle_vanity env id).2.all (fun call => !call.isFetch) = true) ∧
    (∀ channel : Channel,
      env.resolve ("youtube.com/+" ++ id) ≠ .ok (some (.BrowseEndpoint main_id)) →
      env.resolve ("youtube.com/user/" ++ id) ≠ .ok (some (.BrowseEndpoint main_id)) →
      env.getChannel (.ChannelID main_id) = .ok channel →
      (handle_vanity env id).1 = .ok ⟨apply_enrich env channel, none⟩ ∧
      UpstreamCall.fetch (.ChannelID main_id) ∈ (handle_vanity env id).2) := by
  constructor
  · intro hcol
    rcases hcol with hplus | huser
    · have hp := probe_hit_eq_true main_id
      rw [← hplus] at hp
      simp [handle_vanity, hmain, hp, UpstreamCall.isFetch]
    · cases hp : probe_hit (env.resolve ("youtube.com/+" ++ id)) main_id
      · have hu := probe_hit_eq_true main_id
        rw [← huser] at hu
        simp [handle_vanity, hmain, hp, hu, UpstreamCall.isFetch]
      · simp [handle_vanity, hmain, hp, UpstreamCall.isFetch]
  · intro channel hplus huser hfetch
    have hp := probe_hit_eq_false _ _ hplus
    have hu := probe_hit_eq_false _ _ huser
    constructor
    · simp [handle_vanity, hmain, hp, hu, hfetch]
    · simp [handle_vanity, hmain, hp, hu, hfetch]

/-- Witness for C5: with `env5`, where the "+name" probe collides, the
lookup fails with the terminal error and fetches no channel; `env5`'s fetch
oracle is never consulted. -/
theorem claim5_vanity_collision_witness :
    (handle_vanity env5 "name").1 = .error (.NotFound "Not a vanity URL") ∧
    (handle_vanity env5 "name").2.all (fun call => !call.isFetch) = true :=
  (claim5_vanity_collision env5 "name" "UCmain" (by rfl)).1 (Or.inl (by rfl))

/-- Claim C6: when the direct-by-ID fetch of a ChannelId lookup reports
NotFound, the handler issues exactly one page-size-1 subscriptions probe and
always terminates with a not-found error whose message is determined by the
probe classification: AccountTerminated gives the "terminated" message,
AccountClosed the "deleted" message, and any other outcome — a successful
list response included — the generic "Channel not found"; the probe never
recovers a channel. -/
theorem claim6_channel_id_probe (env : Env) (id : String)
    (h404 : env.getChannel (.ChannelID id) = .error .NotFound) :
    (channel_handler env .ChannelId id).1 =
      .error (.NotFound (probe_message (env.getSubscriptions id none 1))) ∧
    (channel_handler env .ChannelId id).2 =
      [.fetch (.ChannelID id), .subscriptions id none 1] ∧
    (env.getSubscriptions id none 1 = .error .AccountTerminated →
      (channel_handler env .ChannelId id).1 =
        .error (.NotFound "This channel has been terminated")) ∧
    (env.getSubscriptions id none 1 = .error .AccountClosed →
      (channel_handler env .ChannelId id).1 =
        .error (.NotFound "This channel has been deleted")) ∧
    (∀ (items : List Subscription) (tok : Option String),
      env.getSubscriptions id none 1 = .ok (items, tok) →
      (channel_handler env .ChannelId id).1 =
        .error (.NotFound "Channel not found")) := by
  refine ⟨?_, ?_, ?_, ?_, ?_⟩
  · simp [channel_handler, handle_channel_id, check_channel_status, h404]
  · simp [channel_handler, handle_channel_id, check_channel_status, h404]
  · intro hprobe
    simp [channel_handler, handle_channel_id, check_channel_status, h404,
      hprobe, probe_message]
  · intro hprobe
    simp [channel_handler, handle_channel_id, check_channel_status, h404,
      hprobe, probe_message]
  · intro items tok hprobe
    simp [channel_handler, handle_channel_id, check_channel_status, h404,
      hprobe, probe_message]

/-- Witness for C6: with `env6` (fetch 404s, probe classifies as
AccountTerminated), the final error is the terminated-specific not-found. -/
theorem claim6_channel_id_probe_witness :
    (channel_handler env6 .ChannelId "UCgone").1 =
      .error (.NotFound "This channel has been terminated") :=
  (claim6_channel_id_probe env6 "UCgone" (by rfl)).2.2.1 (by rfl)

/-- Counterexample to claim C7 as stated: a "+name" resolution that lands on
a redirect-target URL is rejected as an InvalidRequest (HTTP 400 bad
request), not as a not-found error. -/
theorem claim7_custom_url_counterexample :
    env7.resolve ("youtube.com/+" ++ "abc") =
      .ok (some (.UrlEndpoint "http://www.youtube.com/channel/UCelse")) ∧
    (channel_handler env7 .CustomUrl "abc").1 =
      .error (.InvalidRequest "Invalid custom URL - unexpected URL endpoint") ∧
    ApiError.isNotFoundErr
      (.InvalidRequest "Invalid custom URL - unexpected URL endpoint") = false := by
  exact ⟨by rfl, by rfl, by rfl⟩

/-- Claim C7 (amended): every miss of the "+name" resolution in a CustomUrl
lookup is terminal, stopping after the single resolve call with no channel
fetch and no fallback; an upstream not-found or an empty resolution result
yields the terminal not-found error, while a resolution to a
redirect-target URL yields a terminal invalid-request error instead. -/
theorem claim7_custom_url_miss (env : Env) (id : String) :
    (env.resolve ("youtube.com/+" ++ id) = .ok none →
      channel_handler env .CustomUrl id =
        (.error (.NotFound "Custom URL not found"), [.resolve ("youtube.com/+" ++ id)])) ∧
    (env.resolve ("youtube.com/+" ++ id) = .error .NotFound →
      channel_handler env .CustomUrl id =
        (.error (.NotFound "Custom URL not found"), [.resolve ("youtube.com/+" ++ id)])) ∧
    (∀ u : String, env.resolve ("youtube.com/+" ++ id) = .ok (some (.UrlEndpoint u)) →
      channel_handler env .CustomUrl id =
        (.error (.InvalidRequest "Invalid custom URL - unexpected URL endpoint"),
          [.resolve ("youtube.com/+" ++ id)])) := by
  refine ⟨?_, ?_, ?_⟩
  · intro h
    simp [channel_handler, handle_custom_url, h]
  · intro h
    simp [channel_handler, handle_custom_url, h]
  · intro u h
    simp [channel_handler, handle_custom_url, h]

/-- Witness for C7 (amended): with `env6`, whose resolver returns the empty
result for every URL, a CustomUrl lookup is the terminal not-found error
after one resolve call. -/
theorem claim7_custom_url_miss_witness :
    channel_handler env6 .CustomUrl "abc" =
      (.error (.NotFound "Custom URL not found"), [.resolve ("youtube.com/+" ++ "abc")]) :=
  (claim7_custom_url_miss env6 "abc").1 (by rfl)

/-- Counterexample to claim C8 as stated: in a Vanity lookup, a transport
failure of the "+name" collision probe — a URL-resolution call — is silently
swallowed and the resolution still succeeds. -/
theorem claim8_swallowed_probe_counterexample :
    env8.resolve ("youtube.com/+" ++ "name") = .error (.Other "connection reset") ∧
    (YouTubeError.Other "connection reset").is_transport_or_decode = true ∧
    (channel_handler env8 .Vanity "name").1 = .ok ⟨exCh8, none⟩ := by
  exact ⟨by rfl, by rfl, by rfl⟩

/-- Claim C8 (amended): transport and decode failures of the main
URL-resolution calls and of every channel-fetch call abort the resolution
and surface the classified error (conjuncts on the CustomUrl "+name"
resolve, the CustomUrl fetch and bare-URL resolve, the Vanity main resolve
and fetch, the Username/Handle/ChannelId fetches, and the handle-redirect
re-resolve); the failures that are swallowed and let resolution continue are
Channel Enrichment and the two Vanity collision probes. -/
theorem claim8_error_propagation (env : Env) (id : String) (e : YouTubeError)
    (he : e.is_transport_or_decode = true) :
    (env.resolve ("youtube.com/+" ++ id) = .error e →
      (channel_handler env .CustomUrl id).1 = .error (.YouTubeError e)) ∧
    (∀ b : String, env.resolve ("youtube.com/+" ++ id) = .ok (some (.BrowseEndpoint b)) →
      (env.getChannel (.ChannelID b) = .error e →
        (channel_handler env .CustomUrl id).1 = .error (.YouTubeError e)) ∧
      (∀ ch : Channel, env.getChannel (.ChannelID b) = .ok ch →
        env.resolve ("youtube.com/" ++ to_uppercase id) = .error e →
        (channel_handler env .CustomUrl id).1 = .error (.YouTubeError e))) ∧
    (env.resolve ("youtube.com/" ++ to_uppercase id) = .error e →
      (channel_handler env .Vanity id).1 = .error (.YouTubeError e)) ∧
    (∀ m : String, env.resolve ("youtube.com/" ++ to_uppercase id) =
        .ok (some (.BrowseEndpoint m)) →
      env.resolve ("youtube.com/+" ++ id) ≠ .ok (some (.BrowseEndpoint m)) →
      env.resolve ("youtube.com/user/" ++ id) ≠ .ok (some (.BrowseEndpoint m)) →
      (env.getChannel (.ChannelID m) = .error e →
        (channel_handler env .Vanity id).1 = .error (.YouTubeError e)) ∧
      (∀ ch : Channel, env.getChannel (.ChannelID m) = .ok ch →
        (channel_handler env .Vanity id).1 = .ok ⟨apply_enrich env ch, none⟩)) ∧
    (env.getChannel (.Username id) = .error e →
      (channel_handler env .Username id).1 = .error (.YouTubeError e)) ∧
    (env.getChannel (.Handle id) = .error e →
      (channel_handler env .Handle id).1 = .error (.YouTubeError e)) ∧
    (env.getChannel (.ChannelID id) = .error e →
      (channel_handler env .ChannelId id).1 = .error (.YouTubeError e)) ∧
    (∀ (ch : Channel) (hdl : String), env.getChannel (.Username id) = .ok ch →
      (apply_enrich env ch).handle = some hdl →
      env.resolve ("youtube.com/@" ++ hdl) = .error e →
      (channel_handler env .Username id).1 = .error (.YouTubeError e)) ∧
    (∀ ch : Channel, env.getChannel (.Username id) = .ok ch →
      env.enrich ch = .error e → ch.handle = none →
      (channel_handler env .Username id).1 = .ok ⟨ch, none⟩) := by
  refine ⟨?_, ?_, ?_, ?_, ?_, ?_, ?_, ?_, ?_⟩
  · intro h
    cases e <;>
      simp_all [channel_handler, handle_custom_url, YouTubeError.is_transport_or_decode]
  · intro b hb
    constructor
    · intro h
      simp [channel_handler, handle_custom_url, hb, h]
    · intro ch hch h
      simp [channel_handler, handle_custom_url, hb, hch, h]
  · intro h
    simp [channel_handler, handle_vanity, h]
  · intro m hm hplus huser
    have hp := probe_hit_eq_false _ _ hplus
    have hu := probe_hit_eq_false _ _ huser
    constructor
    · intro h
      simp [channel_handler, handle_vanity, hm, hp, hu, h]
    · intro ch hch
      simp [channel_handler, handle_vanity, hm, hp, hu, hch]
  · intro h
    simp [channel_handler, handle_direct, h]
  · intro h
    simp [channel_handler, handle_direct, h]
  · intro h
    cases e <;>
      simp_all [channel_handler, handle_channel_id, YouTubeError.is_transport_or_decode]
  · intro ch hdl hch hh h
    simp [channel_handler, handle_direct, handle_redirect_check, hch, hh, h]
  · intro ch hch henr hh
    simp [channel_handler, handle_direct, handle_redirect_check, apply_enrich,
      hch, henr, hh]

/-- Witness for C8 (amended): with `env8`, a transport failure of the
CustomUrl "+name" resolution aborts that lookup with the classified error. -/
theorem claim8_error_propagation_witness :
    (channel_handler env8 .CustomUrl "name").1 =
      .error (.YouTubeError (.Other "connection reset")) :=
  (claim8_error_propagation env8 "name" (.Other "connection reset")
    (by rfl)).1 (by rfl)

end YouTubeLookup
